import Mathlib

/-!
Shallow embedding of the probing core of
`src/Firmware/src/modules/tools/zprobe/ZProbe.cpp` (SmoothieV2).

Floating-point configuration values and positions are modelled as rationals;
the debounce counter is a natural number.  Calls into the actuator/motion
gateways (`delta_move`, `wait_for_idle`, `stop_moving`, `push_state`,
`pop_state`, `reset_position_from_current_actuator_position`,
`set_last_probe_position`, dispatcher `G0` dispatches, printf reports,
`broadcast_halt`) are modelled as an emitted event trace.  The sampler ticks
that fire while a probing move blocks in `wait_for_idle` are passed in as an
explicit list of per-tick inputs and are run through the embedded
`read_probe`.
-/

/-- Configuration fields of the ZProbe module read in `ZProbe::configure`. -/
structure ZProbeCfg where
  debounce_ms : ℚ
  slow_feedrate : ℚ
  fast_feedrate : ℚ
  return_feedrate : ℚ
  probe_height : ℚ
  reverse_z : Bool
  max_z : ℚ
  dwell_before_probing : ℚ
  deriving DecidableEq

/-- Mutable session fields of ZProbe shared between the 100 Hz sampler
(`read_probe`) and the probing engine (`run_probe` / `probe_XYZ`). -/
structure SessionState where
  probing : Bool
  probe_detected : Bool
  debounce : Nat
  deriving DecidableEq

/-- Inputs the sampler reads on one tick: the raw probe pin and the
per-axis `is_moving()` queries of the X, Y and Z steppers. -/
structure TickInput where
  pinActive : Bool
  xMoving : Bool
  yMoving : Bool
  zMoving : Bool
  deriving DecidableEq

/-- Externally visible actions of the ZProbe module.  `stopAll` stands for
the loop `for(auto &a : Robot::getInstance()->actuators) a->stop_moving();`,
i.e. a stop command issued to every actuator. -/
inductive Ev where
  | sleepMs (ms : ℚ)
  | deltaMove (dx dy dz feedrate : ℚ)
  | waitForIdle
  | stopAll
  | setLastProbePos (x y z : ℚ) (flag : Nat)
  | reconcile
  | pushState
  | popState
  | setAbsoluteMode (b : Bool)
  | setMCS
  | dispatchG0 (axis : Nat) (target fparam : ℚ)
  | setDisableSegmentation (b : Bool)
  | report (fmt : String) (x y z : ℚ) (flag : Nat)
  | alarmMsg (msg : String)
  | halt (b : Bool)
  deriving DecidableEq

/-- One tick of `ZProbe::read_probe` (ZProbe.cpp lines 150-175).  Returns the
session state after the tick and whether this tick issued a stop command to
every actuator. -/
def read_probe (cfg : ZProbeCfg) (s : SessionState) (inp : TickInput) :
    SessionState × Bool :=
  if !s.probing || s.probe_detected then (s, false)
  else if inp.xMoving || inp.yMoving || inp.zMoving then
    if inp.pinActive then
      if (s.debounce : ℚ) < cfg.debounce_ms then
        ({ s with debounce := s.debounce + 1 }, false)
      else
        ({ s with probe_detected := true, debounce := 0 }, true)
    else
      ({ s with debounce := 0 }, false)
  else (s, false)

/-- Run the sampler over a list of tick inputs, collecting for each tick
whether it issued the all-actuator stop. -/
def runTicks (cfg : ZProbeCfg) : SessionState → List TickInput → SessionState × List Bool
  | s, [] => (s, [])
  | s, inp :: rest =>
    let r := read_probe cfg s inp
    let rr := runTicks cfg r.1 rest
    (rr.1, r.2 :: rr.2)

/-- Stop events emitted by a list of sampler ticks. -/
def stopEvents : List Bool → List Ev
  | [] => []
  | b :: rest => (if b then [Ev.stopAll] else []) ++ stopEvents rest

/-- Embedding of `ZProbe::move_x` (lines 457-465).  Note: unlike `move_y`,
`move_z` and `move_xy`, the source of `move_x` does not call
`Conveyor::wait_for_idle()` between the dispatch and `pop_state()`. -/
def move_x (x feedrate : ℚ) (relative : Bool) : List Ev :=
  [Ev.pushState, Ev.setAbsoluteMode (!relative), Ev.setMCS,
   Ev.dispatchG0 0 x (feedrate * 60), Ev.popState]

/-- Embedding of `ZProbe::move_y` (lines 467-476). -/
def move_y (y feedrate : ℚ) (relative : Bool) : List Ev :=
  [Ev.pushState, Ev.setAbsoluteMode (!relative), Ev.setMCS,
   Ev.dispatchG0 1 y (feedrate * 60), Ev.waitForIdle, Ev.popState]

/-- Embedding of `ZProbe::move_z` (lines 478-487). -/
def move_z (z feedrate : ℚ) (relative : Bool) : List Ev :=
  [Ev.pushState, Ev.setAbsoluteMode (!relative), Ev.setMCS,
   Ev.dispatchG0 2 z (feedrate * 60), Ev.waitForIdle, Ev.popState]

/-- Environment a `run_probe` call interacts with: the probe pin value at
entry, the Z actuator position before the move and after the blocking wait,
the planner Z axis position at entry (used by `run_probe_return`), and the
sampler ticks that fire while the session is armed. -/
structure ProbeEnv where
  pinAtEntry : Bool
  zStart : ℚ
  zEnd : ℚ
  axisZPos : ℚ
  ticks : List TickInput
  deriving DecidableEq

/-- Result of one `run_probe` call: the returned boolean, the value of the
`float& mm` output parameter after the call, the session state after the
call, and the emitted events. -/
structure ProbeRun where
  triggered : Bool
  mm : ℚ
  session : SessionState
  events : List Ev
  deriving DecidableEq

/-- Embedding of `ZProbe::run_probe` (lines 179-221).  `mm0` is the value of
the caller's `mm` variable at entry (the source leaves it untouched on the
pre-triggered abort path). -/
def run_probe (cfg : ZProbeCfg) (s : SessionState) (mm0 : ℚ)
    (feedrate max_dist : ℚ) (reverse : Bool) (env : ProbeEnv) : ProbeRun :=
  if env.pinAtEntry then
    { triggered := false, mm := mm0, session := s, events := [] }
  else
    let maxz := if max_dist < 0 then cfg.max_z * 2 else max_dist
    let s1 : SessionState := { probing := true, probe_detected := false, debounce := 0 }
    let z_start := env.zStart
    let dwellEvs : List Ev :=
      if cfg.dwell_before_probing > (1 / 10000 : ℚ) then
        [Ev.sleepMs (cfg.dwell_before_probing * 1000)]
      else []
    let dir : Bool := !cfg.reverse_z != reverse
    let dz : ℚ := if dir then -maxz else maxz
    let r := runTicks cfg s1 env.ticks
    let mm := z_start - env.zEnd
    let flag : Nat := if r.1.probe_detected then 1 else 0
    { triggered := r.1.probe_detected
      mm := mm
      session := { r.1 with probing := false }
      events := dwellEvs ++ [Ev.deltaMove 0 0 dz feedrate, Ev.waitForIdle]
        ++ stopEvents r.2
        ++ [Ev.setLastProbePos 0 0 mm flag]
        ++ (if r.1.probe_detected then [Ev.reconcile] else []) }

/-- Embedding of `ZProbe::run_probe_return` (lines 224-243). -/
def run_probe_return (cfg : ZProbeCfg) (s : SessionState) (mm0 : ℚ)
    (feedrate max_dist : ℚ) (reverse : Bool) (env : ProbeEnv) : ProbeRun :=
  let save_z_pos := env.axisZPos
  let r := run_probe cfg s mm0 feedrate max_dist reverse env
  let fr : ℚ :=
    if cfg.return_feedrate ≠ 0 then cfg.return_feedrate
    else
      let f := cfg.slow_feedrate * 2
      if f > cfg.fast_feedrate then cfg.fast_feedrate else f
  { r with events := r.events ++ move_z save_z_pos fr false }

/-- Arguments of the G38 gcode consumed by `probe_XYZ`: whether an F argument
is present and its value, the target argument of the probed axis, and the
G38 subcode (2 = strict, 3 = non-strict). -/
structure GcArgs where
  hasF : Bool
  fArg : ℚ
  target : ℚ
  subcode : Nat
  deriving DecidableEq

/-- Environment of a `probe_XYZ` call: the sampler ticks fired during the
supervised move and the machine-coordinate axis positions reported by
`Robot::get_axis_position` after reconciliation. -/
structure XYZEnv where
  ticks : List TickInput
  posX : ℚ
  posY : ℚ
  posZ : ℚ
  deriving DecidableEq

/-- Format string of the GRBL-style probe report printed by `probe_XYZ`. -/
def prbFormat : String := "[PRB:%1.3f,%1.3f,%1.3f:%d]\n"

/-- Alarm message printed by `probe_XYZ` on a strict-mode non-trigger. -/
def probeFailMsg : String := "ALARM: Probe fail\n"

/-- Result of one `probe_XYZ` call. -/
structure XYZRun where
  session : SessionState
  events : List Ev
  deriving DecidableEq

/-- Embedding of `ZProbe::probe_XYZ` (lines 402-442).  Axis numbering is
X = 0, Y = 1, Z = 2 as in the source. -/
def probe_XYZ (cfg : ZProbeCfg) (s : SessionState) (g : GcArgs) (axis : Nat)
    (env : XYZEnv) : XYZRun :=
  let s1 : SessionState := { probing := true, probe_detected := false, debounce := s.debounce }
  let rate : ℚ := if g.hasF then g.fArg / 60 else cfg.slow_feedrate
  let moveEvs : List Ev :=
    if axis = 0 then move_x g.target rate true
    else if axis = 1 then move_y g.target rate true
    else if axis = 2 then move_z g.target rate true
    else []
  let r := runTicks cfg s1 env.ticks
  let probeok : Nat := if r.1.probe_detected then 1 else 0
  { session := { r.1 with probing := false }
    events := [Ev.setDisableSegmentation true] ++ moveEvs ++ stopEvents r.2
      ++ [Ev.setDisableSegmentation false, Ev.reconcile,
          Ev.report prbFormat env.posX env.posY env.posZ probeok,
          Ev.setLastProbePos env.posX env.posY env.posZ probeok]
      ++ (if probeok = 0 ∧ g.subcode = 2 then [Ev.alarmMsg probeFailMsg, Ev.halt true] else []) }

/-- A leveling or calibration strategy, abstracted to whether its
`handleGCode` call reports a given gcode as handled. -/
structure Strategy where
  handles : Nat → Bool

/-- Message printed when both configured strategies decline a gcode. -/
def noStrategyMsg : String := "No strategy found to handle G%d\n"

/-- Message printed when the P-selected configured strategy declines. -/
def didNotHandleMsg : String := "strategy #%d did not handle G%d\n"

/-- Message printed for a P selector other than 0 or 1. -/
def onlyP0P1Msg : String := "Only P0 ad P1 supported\n"

/-- Embedding of the strategy-dispatch branch of `ZProbe::handle_gcode`
(lines 289-326), reached for G29/G31/G32.  The source calls
`leveling_strategy->handleGCode(...)` / `calibration_strategy->handleGCode(...)`
without any null check; dereferencing an absent (null) strategy pointer is
modelled as `Except.error ()`.  A normal outcome carries the source's boolean
return value and the printed messages. -/
def strategy_gcode (lev cal : Option Strategy) (code : Nat) (hasP : Bool)
    (pArg : Nat) : Except Unit (Bool × List String) :=
  if !hasP then
    match lev with
    | none => Except.error ()
    | some l =>
      if l.handles code then Except.ok (true, [])
      else
        match cal with
        | none => Except.error ()
        | some c =>
          if c.handles code then Except.ok (true, [])
          else Except.ok (false, [noStrategyMsg])
  else
    if pArg = 0 then
      match lev with
      | none => Except.error ()
      | some l =>
        if l.handles code then Except.ok (true, [])
        else Except.ok (false, [didNotHandleMsg])
    else if pArg = 1 then
      match cal with
      | none => Except.error ()
      | some c =>
        if c.handles code then Except.ok (true, [])
        else Except.ok (false, [didNotHandleMsg])
    else Except.ok (false, [onlyP0P1Msg])

/-- Count of `true` entries in a list of booleans. -/
def countTrue : List Bool → Nat
  | [] => 0
  | b :: rest => (if b then 1 else 0) + countTrue rest

/-- Count of occurrences of one event in an event list. -/
def countEv (e : Ev) : List Ev → Nat
  | [] => 0
  | x :: rest => (if x = e then 1 else 0) + countEv e rest

/-- Whether an event is a coordinated `delta_move`. -/
def isDeltaMoveEv : Ev → Bool
  | Ev.deltaMove _ _ _ _ => true
  | _ => false

/-- Number of coordinated moves in an event list. -/
def countDeltaMoves (l : List Ev) : Nat := (l.filter (fun e => isDeltaMoveEv e)).length

/-- Z delta of the first coordinated move in an event list, if any. -/
def issuedZDelta : List Ev → Option ℚ
  | [] => none
  | Ev.deltaMove _ _ dz _ :: _ => some dz
  | _ :: rest => issuedZDelta rest

/-- All probe reports in an event list, as (format, x, y, z, flag). -/
def reportsIn : List Ev → List (String × ℚ × ℚ × ℚ × Nat)
  | [] => []
  | Ev.report f x y z fl :: rest => (f, x, y, z, fl) :: reportsIn rest
  | _ :: rest => reportsIn rest

/-- Whether an event list contains an alarm message. -/
def hasAlarmEv : List Ev → Bool
  | [] => false
  | Ev.alarmMsg _ :: _ => true
  | _ :: rest => hasAlarmEv rest

/-- Whether an event list contains a machine halt. -/
def hasHaltEv : List Ev → Bool
  | [] => false
  | Ev.halt _ :: _ => true
  | _ :: rest => hasHaltEv rest

/-! Basic lemmas about the sampler. -/

lemma read_probe_not_probing (cfg : ZProbeCfg) (s : SessionState) (inp : TickInput)
    (hp : s.probing = false) : read_probe cfg s inp = (s, false) := by
  simp [read_probe, hp]

lemma read_probe_already_detected (cfg : ZProbeCfg) (s : SessionState) (inp : TickInput)
    (hd : s.probe_detected = true) : read_probe cfg s inp = (s, false) := by
  simp [read_probe, hd]

lemma read_probe_not_moving (cfg : ZProbeCfg) (s : SessionState) (inp : TickInput)
    (hp : s.probing = true) (hd : s.probe_detected = false)
    (hm : (inp.xMoving || inp.yMoving || inp.zMoving) = false) :
    read_probe cfg s inp = (s, false) := by
  simp [read_probe, hp, hd, hm]

lemma read_probe_inactive (cfg : ZProbeCfg) (s : SessionState) (inp : TickInput)
    (hp : s.probing = true) (hd : s.probe_detected = false)
    (hm : (inp.xMoving || inp.yMoving || inp.zMoving) = true)
    (ha : inp.pinActive = false) :
    read_probe cfg s inp = ({ s with debounce := 0 }, false) := by
  simp [read_probe, hp, hd, hm, ha]

lemma read_probe_active_below (cfg : ZProbeCfg) (s : SessionState) (inp : TickInput)
    (hp : s.probing = true) (hd : s.probe_detected = false)
    (hm : (inp.xMoving || inp.yMoving || inp.zMoving) = true)
    (ha : inp.pinActive = true) (hlt : (s.debounce : ℚ) < cfg.debounce_ms) :
    read_probe cfg s inp = ({ s with debounce := s.debounce + 1 }, false) := by
  simp [read_probe, hp, hd, hm, ha, hlt]

lemma read_probe_active_confirm (cfg : ZProbeCfg) (s : SessionState) (inp : TickInput)
    (hp : s.probing = true) (hd : s.probe_detected = false)
    (hm : (inp.xMoving || inp.yMoving || inp.zMoving) = true)
    (ha : inp.pinActive = true) (hge : ¬ (s.debounce : ℚ) < cfg.debounce_ms) :
    read_probe cfg s inp = ({ s with probe_detected := true, debounce := 0 }, true) := by
  simp [read_probe, hp, hd, hm, ha, hge]

lemma read_probe_cases (cfg : ZProbeCfg) (s : SessionState) (inp : TickInput) :
    read_probe cfg s inp = (s, false)
    ∨ read_probe cfg s inp = ({ s with debounce := s.debounce + 1 }, false)
    ∨ read_probe cfg s inp = ({ s with probe_detected := true, debounce := 0 }, true)
    ∨ read_probe cfg s inp = ({ s with debounce := 0 }, false) := by
  unfold read_probe
  split_ifs <;> simp

lemma read_probe_stop_detected (cfg : ZProbeCfg) (s : SessionState) (inp : TickInput)
    (h : (read_probe cfg s inp).2 = true) :
    (read_probe cfg s inp).1.probe_detected = true := by
  rcases read_probe_cases cfg s inp with hc | hc | hc | hc <;> rw [hc] at h ⊢ <;> simp_all

lemma runTicks_of_detected (cfg : ZProbeCfg) :
    ∀ (ticks : List TickInput) (s : SessionState), s.probe_detected = true →
      runTicks cfg s ticks = (s, List.replicate ticks.length false) := by
  intro ticks
  induction ticks with
  | nil => intro s _; simp [runTicks]
  | cons inp rest ih =>
    intro s hd
    simp [runTicks, read_probe_already_detected cfg s inp hd, ih s hd, List.replicate_succ]

lemma countTrue_replicate_false (n : Nat) : countTrue (List.replicate n false) = 0 := by
  induction n with
  | zero => rfl
  | succ n ih => simp [List.replicate_succ, countTrue, ih]

lemma countTrue_runTicks_le_one (cfg : ZProbeCfg) :
    ∀ (ticks : List TickInput) (s : SessionState),
      countTrue (runTicks cfg s ticks).2 ≤ 1 := by
  intro ticks
  induction ticks with
  | nil => intro s; simp [runTicks, countTrue]
  | cons inp rest ih =>
    intro s
    simp only [runTicks, countTrue]
    cases hb : (read_probe cfg s inp).2 with
    | false => simpa using ih (read_probe cfg s inp).1
    | true =>
      have hdet := read_probe_stop_detected cfg s inp hb
      rw [runTicks_of_detected cfg rest _ hdet]
      simp [countTrue_replicate_false]

/-- C1: on every sampler tick, `probe_detected` can transition false→true only
while the session is armed (`probing = true`), and on that very tick the
all-actuator stop has been issued; when the session is not armed, or already
detected, or no primary axis is moving, the tick leaves the session unchanged
and issues no stop; and along any sequence of ticks the all-actuator stop
(and hence the detection transition) fires at most once. -/
theorem read_probe_session_invariants (cfg : ZProbeCfg) (s : SessionState) (inp : TickInput) :
    ((read_probe cfg s inp).1.probe_detected = true → s.probe_detected = false →
      s.probing = true ∧ (read_probe cfg s inp).2 = true)
    ∧ (s.probing = false ∨ s.probe_detected = true
        ∨ (inp.xMoving = false ∧ inp.yMoving = false ∧ inp.zMoving = false) →
      read_probe cfg s inp = (s, false))
    ∧ (∀ ticks : List TickInput, countTrue (runTicks cfg s ticks).2 ≤ 1) := by
  refine ⟨?_, ?_, fun ticks => countTrue_runTicks_le_one cfg ticks s⟩
  · intro h1 h2
    cases hp : s.probing with
    | false =>
      rw [read_probe_not_probing cfg s inp hp] at h1
      simp_all
    | true =>
      cases hm : (inp.xMoving || inp.yMoving || inp.zMoving) with
      | false =>
        rw [read_probe_not_moving cfg s inp hp h2 hm] at h1
        simp_all
      | true =>
        cases ha : inp.pinActive with
        | false =>
          rw [read_probe_inactive cfg s inp hp h2 hm ha] at h1
          simp_all
        | true =>
          by_cases hlt : (s.debounce : ℚ) < cfg.debounce_ms
          · rw [read_probe_active_below cfg s inp hp h2 hm ha hlt] at h1
            simp_all
          · rw [read_probe_active_confirm cfg s inp hp h2 hm ha hlt]
            exact ⟨rfl, rfl⟩
  · rintro (hp | hd | ⟨hx, hy, hz⟩)
    · exact read_probe_not_probing cfg s inp hp
    · exact read_probe_already_detected cfg s inp hd
    · cases hd : s.probe_detected with
      | true => exact read_probe_already_detected cfg s inp hd
      | false =>
        cases hp : s.probing with
        | false => exact read_probe_not_probing cfg s inp hp
        | true => exact read_probe_not_moving cfg s inp hp hd (by simp [hx, hy, hz])

lemma runTicks_append (cfg : ZProbeCfg) (l1 l2 : List TickInput) :
    ∀ s : SessionState,
      runTicks cfg s (l1 ++ l2) =
        ((runTicks cfg (runTicks cfg s l1).1 l2).1,
         (runTicks cfg s l1).2 ++ (runTicks cfg (runTicks cfg s l1).1 l2).2) := by
  induction l1 with
  | nil => intro s; simp [runTicks]
  | cons inp rest ih => intro s; simp [runTicks, ih]

lemma runTicks_replicate_active (cfg : ZProbeCfg) (t : Nat)
    (ht : cfg.debounce_ms = (t : ℚ)) (inp : TickInput)
    (ha : inp.pinActive = true) (hm : (inp.xMoving || inp.yMoving || inp.zMoving) = true) :
    ∀ (n k : Nat), k + n ≤ t →
      runTicks cfg ⟨true, false, k⟩ (List.replicate n inp) =
        (⟨true, false, k + n⟩, List.replicate n false) := by
  intro n
  induction n with
  | zero => intro k _; simp [runTicks]
  | succ n ih =>
    intro k hk
    have hklt : k < t := by omega
    have hlt : ((⟨true, false, k⟩ : SessionState).debounce : ℚ) < cfg.debounce_ms := by
      rw [ht]
      exact_mod_cast hklt
    have hstep := read_probe_active_below cfg ⟨true, false, k⟩ inp rfl rfl hm ha hlt
    have hrec := ih (k + 1) (by omega)
    rw [List.replicate_succ]
    simp only [runTicks, hstep]
    simp only at hrec
    rw [show ({ (⟨true, false, k⟩ : SessionState) with debounce := k + 1 } : SessionState)
          = (⟨true, false, k + 1⟩ : SessionState) from rfl, hrec]
    have : k + 1 + n = k + (n + 1) := by omega
    rw [this, List.replicate_succ]

/-- C2: with debounce threshold `t`, from a freshly armed session (counter 0)
and an axis moving, the sampler does not confirm during the first `t`
consecutive active ticks; it confirms exactly on the `(t+1)`-th consecutive
active tick, issuing the stop there and resetting the counter; and any tick
with an inactive pin (while armed, undetected and moving) resets the counter
to 0 without confirming.  A threshold of 0 confirms on the first active
sample (the `t = 0` instance of the second conjunct). -/
theorem read_probe_debounce_exact (t : Nat) (cfg : ZProbeCfg)
    (ht : cfg.debounce_ms = (t : ℚ)) (inp : TickInput)
    (ha : inp.pinActive = true)
    (hm : (inp.xMoving || inp.yMoving || inp.zMoving) = true) :
    (∀ n, n ≤ t →
      runTicks cfg ⟨true, false, 0⟩ (List.replicate n inp) =
        (⟨true, false, n⟩, List.replicate n false))
    ∧ runTicks cfg ⟨true, false, 0⟩ (List.replicate (t + 1) inp) =
        (⟨true, true, 0⟩, List.replicate t false ++ [true])
    ∧ (∀ (s : SessionState) (j : TickInput), s.probing = true → s.probe_detected = false →
        (j.xMoving || j.yMoving || j.zMoving) = true → j.pinActive = false →
        read_probe cfg s j = ({ s with debounce := 0 }, false)) := by
  refine ⟨?_, ?_, fun s j hp hd hjm hja => read_probe_inactive cfg s j hp hd hjm hja⟩
  · intro n hn
    have h := runTicks_replicate_active cfg t ht inp ha hm n 0 (by omega)
    simpa using h
  · have h1 := runTicks_replicate_active cfg t ht inp ha hm t 0 (by omega)
    simp only [Nat.zero_add] at h1
    have hge : ¬ ((⟨true, false, t⟩ : SessionState).debounce : ℚ) < cfg.debounce_ms := by
      rw [ht]
      exact_mod_cast lt_irrefl t
    have hstep := read_probe_active_confirm cfg ⟨true, false, t⟩ inp rfl rfl hm ha hge
    rw [List.replicate_succ', runTicks_append, h1]
    simp only [runTicks, hstep]

/-! Lemmas about the event-trace observers. -/

lemma countEv_append (e : Ev) (l1 l2 : List Ev) :
    countEv e (l1 ++ l2) = countEv e l1 + countEv e l2 := by
  induction l1 with
  | nil => simp [countEv]
  | cons x rest ih => simp [countEv, ih]; omega

lemma countEv_stopEvents (e : Ev) (he : e ≠ Ev.stopAll) (bs : List Bool) :
    countEv e (stopEvents bs) = 0 := by
  induction bs with
  | nil => rfl
  | cons b rest ih =>
    cases b <;> simp [stopEvents, countEv_append, countEv, ih, Ne.symm he]

lemma reportsIn_append (l1 l2 : List Ev) :
    reportsIn (l1 ++ l2) = reportsIn l1 ++ reportsIn l2 := by
  induction l1 with
  | nil => simp [reportsIn]
  | cons x rest ih => cases x <;> simp [reportsIn, ih]

lemma reportsIn_stopEvents (bs : List Bool) : reportsIn (stopEvents bs) = [] := by
  induction bs with
  | nil => rfl
  | cons b rest ih => cases b <;> simp [stopEvents, reportsIn_append, reportsIn, ih]

lemma hasAlarmEv_append (l1 l2 : List Ev) :
    hasAlarmEv (l1 ++ l2) = (hasAlarmEv l1 || hasAlarmEv l2) := by
  induction l1 with
  | nil => simp [hasAlarmEv]
  | cons x rest ih => cases x <;> simp [hasAlarmEv, ih]

lemma hasAlarmEv_stopEvents (bs : List Bool) : hasAlarmEv (stopEvents bs) = false := by
  induction bs with
  | nil => rfl
  | cons b rest ih => cases b <;> simp [stopEvents, hasAlarmEv_append, hasAlarmEv, ih]

lemma hasHaltEv_append (l1 l2 : List Ev) :
    hasHaltEv (l1 ++ l2) = (hasHaltEv l1 || hasHaltEv l2) := by
  induction l1 with
  | nil => simp [hasHaltEv]
  | cons x rest ih => cases x <;> simp [hasHaltEv, ih]

lemma hasHaltEv_stopEvents (bs : List Bool) : hasHaltEv (stopEvents bs) = false := by
  induction bs with
  | nil => rfl
  | cons b rest ih => cases b <;> simp [stopEvents, hasHaltEv_append, hasHaltEv, ih]

lemma filter_deltaMove_stopEvents (bs : List Bool) :
    (stopEvents bs).filter (fun e => isDeltaMoveEv e) = [] := by
  induction bs with
  | nil => rfl
  | cons b rest ih =>
    have h1 : stopEvents (b :: rest) = (if b then [Ev.stopAll] else []) ++ stopEvents rest := rfl
    rw [h1, List.filter_append, ih]
    cases b <;> rfl

lemma issuedZDelta_stopEvents_append (bs : List Bool) (l : List Ev) :
    issuedZDelta (stopEvents bs ++ l) = issuedZDelta l := by
  induction bs with
  | nil => rfl
  | cons b rest ih => cases b <;> simp [stopEvents, issuedZDelta, ih]

/-! Concrete fixtures used by witnesses and counterexamples. -/

/-- A configuration with debounce threshold 0 and defaults from `configure`. -/
def cfg0 : ZProbeCfg :=
  { debounce_ms := 0, slow_feedrate := 5, fast_feedrate := 100, return_feedrate := 0,
    probe_height := 5, reverse_z := false, max_z := 5, dwell_before_probing := 0 }

/-- A configuration with debounce threshold 1. -/
def cfg1 : ZProbeCfg :=
  { cfg0 with debounce_ms := 1 }

/-- A tick with the pin active and the X axis moving. -/
def tickActive : TickInput :=
  { pinActive := true, xMoving := true, yMoving := false, zMoving := false }

/-- An idle (disarmed) session. -/
def sIdle : SessionState := { probing := false, probe_detected := false, debounce := 0 }

/-- An armed session with counter 0. -/
def sArmed : SessionState := { probing := true, probe_detected := false, debounce := 0 }

/-- A disarmed session carrying a non-zero debounce count. -/
def sPrev : SessionState := { probing := false, probe_detected := false, debounce := 1 }

/-- An environment whose probe pin already reads active at entry. -/
def envPin : ProbeEnv :=
  { pinAtEntry := true, zStart := 10, zEnd := 10, axisZPos := 10, ticks := [] }

/-- An environment with an inactive pin at entry and one active-moving tick. -/
def envA : ProbeEnv :=
  { pinAtEntry := false, zStart := 10, zEnd := 4, axisZPos := 10, ticks := [tickActive] }

/-- A `probe_XYZ` environment with one active-moving tick. -/
def envX : XYZEnv := { ticks := [tickActive], posX := 3, posY := 0, posZ := 0 }

/-- G38.2 arguments without an F word, target 10. -/
def g38args : GcArgs := { hasF := false, fArg := 0, target := 10, subcode := 2 }

/-- C3 (amended): a `run_probe` call whose probe pin already reads active at
entry returns a non-triggered result immediately: the session is not armed
(it is returned unchanged, so `probing` stays false when it was false), the
`mm` output parameter is left unchanged (no distance is recorded), and no
event — neither a move nor a stop — is emitted. -/
theorem run_probe_pretriggered_abort (cfg : ZProbeCfg) (s : SessionState)
    (mm0 feedrate max_dist : ℚ) (reverse : Bool) (env : ProbeEnv)
    (h : env.pinAtEntry = true) :
    run_probe cfg s mm0 feedrate max_dist reverse env
      = { triggered := false, mm := mm0, session := s, events := [] } := by
  simp [run_probe, h]

/-- Witness for the amended C3 at a concrete input. -/
theorem run_probe_pretriggered_abort_witness :
    run_probe cfg0 sIdle 7 10 (-1) false envPin
      = { triggered := false, mm := 7, session := sIdle, events := [] } :=
  run_probe_pretriggered_abort cfg0 sIdle 7 10 (-1) false envPin rfl

/-- C3 counterexample: the claim "zero recorded distance in the output
parameter" is false — the source's pre-triggered abort path (`if(this->pin.get())
return false;`) does not write the `mm` output parameter, so a caller whose
variable held 5 still reads 5, not 0, after the aborted call. -/
theorem run_probe_pretriggered_mm_not_zeroed :
    envPin.pinAtEntry = true
    ∧ (run_probe cfg0 sIdle 5 10 (-1) false envPin).triggered = false
    ∧ (run_probe cfg0 sIdle 5 10 (-1) false envPin).mm ≠ 0 := by
  refine ⟨rfl, rfl, ?_⟩
  norm_num [run_probe, envPin]

/-- C4: `run_probe` requests position reconciliation
(`reset_position_from_current_actuator_position`) exactly once when the probe
was detected and never otherwise, and `probe_XYZ` requests it exactly once
unconditionally. -/
theorem reconcile_request_counts (cfg : ZProbeCfg) (s : SessionState)
    (mm0 feedrate max_dist : ℚ) (reverse : Bool) (env : ProbeEnv)
    (g : GcArgs) (axis : Nat) (xenv : XYZEnv) :
    countEv Ev.reconcile (run_probe cfg s mm0 feedrate max_dist reverse env).events
      = (if (run_probe cfg s mm0 feedrate max_dist reverse env).triggered then 1 else 0)
    ∧ countEv Ev.reconcile (probe_XYZ cfg s g axis xenv).events = 1 := by
  constructor
  · cases hpin : env.pinAtEntry with
    | true => simp [run_probe, hpin, countEv]
    | false =>
      simp only [run_probe, hpin]
      simp only [Bool.false_eq_true, if_false]
      simp [countEv_append, countEv, countEv_stopEvents]
      split_ifs <;> simp [countEv]
  · simp only [probe_XYZ]
    simp [countEv_append, countEv, countEv_stopEvents]
    split_ifs <;> simp [countEv, move_x, move_y, move_z]

/-- C5 (code evaluated at the failing input): `move_x` pushes state, forces
the mode and machine coordinates and dispatches the move, but pops the saved
state without ever waiting for the motion queue to go idle, while `move_y`
and `move_z` do block on `wait_for_idle` before popping. -/
theorem move_x_missing_wait :
    move_x 10 5 true
      = [Ev.pushState, Ev.setAbsoluteMode false, Ev.setMCS,
         Ev.dispatchG0 0 10 300, Ev.popState]
    ∧ countEv Ev.waitForIdle (move_x 10 5 true) = 0
    ∧ countEv Ev.waitForIdle (move_y 10 5 true) = 1
    ∧ countEv Ev.waitForIdle (move_z 10 5 true) = 1 := by
  refine ⟨by norm_num [move_x], by simp [move_x, countEv],
    by simp [move_y, countEv], by simp [move_z, countEv]⟩

lemma run_probe_issuedZDelta (cfg : ZProbeCfg) (s : SessionState)
    (mm0 feedrate max_dist : ℚ) (rev : Bool) (env : ProbeEnv)
    (h : env.pinAtEntry = false) :
    issuedZDelta (run_probe cfg s mm0 feedrate max_dist rev env).events
      = some (if (!cfg.reverse_z != rev) = true
              then -(if max_dist < 0 then cfg.max_z * 2 else max_dist)
              else (if max_dist < 0 then cfg.max_z * 2 else max_dist)) := by
  simp only [run_probe, h, Bool.false_eq_true, if_false]
  split_ifs <;> simp_all [issuedZDelta]

/-- C6: a `run_probe` call (whose pin precondition passes) issues exactly one
coordinated move; that move is along Z only (zero X and Y deltas); its Z
delta is `±maxz` where `maxz` is twice the configured `max_z` when the
max-distance argument is the negative sentinel and the given max-distance
otherwise, with the sign resolved as `reverse_z` XOR the reversal flag; its
magnitude equals the claimed distance (given the relevant non-negativity);
and setting the reversal flag negates the issued Z delta. -/
theorem run_probe_move_direction (cfg : ZProbeCfg) (s : SessionState)
    (mm0 feedrate max_dist : ℚ) (rev : Bool) (env : ProbeEnv)
    (h : env.pinAtEntry = false) :
    countDeltaMoves (run_probe cfg s mm0 feedrate max_dist rev env).events = 1
    ∧ Ev.deltaMove 0 0
        (if (!cfg.reverse_z != rev) = true
         then -(if max_dist < 0 then cfg.max_z * 2 else max_dist)
         else (if max_dist < 0 then cfg.max_z * 2 else max_dist)) feedrate
        ∈ (run_probe cfg s mm0 feedrate max_dist rev env).events
    ∧ (max_dist < 0 → 0 ≤ cfg.max_z →
        ∃ d, issuedZDelta (run_probe cfg s mm0 feedrate max_dist rev env).events = some d
          ∧ |d| = 2 * cfg.max_z)
    ∧ (0 ≤ max_dist →
        ∃ d, issuedZDelta (run_probe cfg s mm0 feedrate max_dist rev env).events = some d
          ∧ |d| = max_dist)
    ∧ issuedZDelta (run_probe cfg s mm0 feedrate max_dist true env).events
        = (issuedZDelta (run_probe cfg s mm0 feedrate max_dist false env).events).map
            (fun d => -d) := by
  refine ⟨?_, ?_, ?_, ?_, ?_⟩
  · simp only [run_probe, h, Bool.false_eq_true, if_false, countDeltaMoves]
    simp only [List.filter_append, filter_deltaMove_stopEvents]
    split_ifs <;> simp [isDeltaMoveEv]
  · simp only [run_probe, h, Bool.false_eq_true, if_false]
    split_ifs <;> simp_all
  · intro hmd hmz
    refine ⟨_, run_probe_issuedZDelta cfg s mm0 feedrate max_dist rev env h, ?_⟩
    rw [if_pos hmd]
    have h2 : (0:ℚ) ≤ cfg.max_z * 2 := by linarith
    cases hdir : (!cfg.reverse_z != rev) <;>
      simp [abs_neg, abs_of_nonneg h2] <;> ring
  · intro hmd
    refine ⟨_, run_probe_issuedZDelta cfg s mm0 feedrate max_dist rev env h, ?_⟩
    rw [if_neg (not_lt.mpr hmd)]
    cases hdir : (!cfg.reverse_z != rev) <;>
      simp [abs_neg, abs_of_nonneg hmd]
  · rw [run_probe_issuedZDelta cfg s mm0 feedrate max_dist true env h,
        run_probe_issuedZDelta cfg s mm0 feedrate max_dist false env h]
    cases hr : cfg.reverse_z <;> simp

/-- Witness for C6 at a concrete input: sentinel max-distance, default
direction, one detecting tick. -/
theorem run_probe_move_direction_witness :
    countDeltaMoves (run_probe cfg0 sIdle 0 6 (-1) false envA).events = 1
    ∧ (∃ d, issuedZDelta (run_probe cfg0 sIdle 0 6 (-1) false envA).events = some d
        ∧ |d| = 2 * cfg0.max_z)
    ∧ issuedZDelta (run_probe cfg0 sIdle 0 6 (-1) true envA).events
        = (issuedZDelta (run_probe cfg0 sIdle 0 6 (-1) false envA).events).map
            (fun d => -d) := by
  have h := run_probe_move_direction cfg0 sIdle 0 6 (-1) false envA rfl
  exact ⟨h.1, h.2.2.1 (by norm_num) (by norm_num [cfg0]), h.2.2.2.2⟩

lemma clamp_eq_min (a b : ℚ) : (if a > b then b else a) = min a b := by
  rcases le_or_lt a b with hle | hlt
  · rw [if_neg (not_lt.mpr hle), min_eq_left hle]
  · rw [if_pos hlt, min_eq_right hlt.le]

/-- C7: `run_probe_return` returns exactly the inner `run_probe` result (same
confirmation boolean and measured distance), and afterwards — triggered or
not — issues an absolute (`relative = false`, hence absolute mode forced on)
machine-coordinate move back to the Z axis position recorded before probing,
at the configured return feedrate when non-zero and otherwise at twice the
slow feedrate clamped to the fast feedrate. -/
theorem run_probe_return_restores (cfg : ZProbeCfg) (s : SessionState)
    (mm0 feedrate max_dist : ℚ) (reverse : Bool) (env : ProbeEnv) :
    (run_probe_return cfg s mm0 feedrate max_dist reverse env).triggered
      = (run_probe cfg s mm0 feedrate max_dist reverse env).triggered
    ∧ (run_probe_return cfg s mm0 feedrate max_dist reverse env).mm
      = (run_probe cfg s mm0 feedrate max_dist reverse env).mm
    ∧ (run_probe_return cfg s mm0 feedrate max_dist reverse env).events
      = (run_probe cfg s mm0 feedrate max_dist reverse env).events
        ++ [Ev.pushState, Ev.setAbsoluteMode true, Ev.setMCS,
            Ev.dispatchG0 2 env.axisZPos
              ((if cfg.return_feedrate ≠ 0 then cfg.return_feedrate
                else min (cfg.slow_feedrate * 2) cfg.fast_feedrate) * 60),
            Ev.waitForIdle, Ev.popState] := by
  refine ⟨rfl, rfl, ?_⟩
  simp only [run_probe_return, move_z, Bool.not_false]
  by_cases hr : cfg.return_feedrate ≠ 0
  · simp [hr]
  · simp [hr, clamp_eq_min]

/-- C8: every `probe_XYZ` call emits exactly one GRBL-format probe report
(format string with 3-decimal coordinates) carrying the machine position and
the trigger flag, and emits the `ALARM: Probe fail` message together with the
machine-wide halt exactly when the trigger flag is 0 and the strict variant
(subcode 2) was requested; since `3 ≠ 2`, the non-strict subcode 3 never
raises the alarm. -/
theorem probe_XYZ_report_alarm (cfg : ZProbeCfg) (s : SessionState) (g : GcArgs)
    (axis : Nat) (env : XYZEnv) :
    ∃ fl : Nat,
      reportsIn (probe_XYZ cfg s g axis env).events
        = [(prbFormat, env.posX, env.posY, env.posZ, fl)]
      ∧ hasAlarmEv (probe_XYZ cfg s g axis env).events = decide (fl = 0 ∧ g.subcode = 2)
      ∧ hasHaltEv (probe_XYZ cfg s g axis env).events = decide (fl = 0 ∧ g.subcode = 2)
      ∧ countEv (Ev.alarmMsg probeFailMsg) (probe_XYZ cfg s g axis env).events
          = (if fl = 0 ∧ g.subcode = 2 then 1 else 0)
      ∧ fl = (if (runTicks cfg
                { probing := true, probe_detected := false, debounce := s.debounce }
                env.ticks).1.probe_detected then 1 else 0) := by
  refine ⟨(if (runTicks cfg
      { probing := true, probe_detected := false, debounce := s.debounce }
      env.ticks).1.probe_detected then 1 else 0), ?_, ?_, ?_, ?_, rfl⟩
  all_goals
    simp only [probe_XYZ]
    split_ifs <;>
      simp_all [reportsIn_append, reportsIn_stopEvents, reportsIn,
        hasAlarmEv_append, hasAlarmEv_stopEvents, hasAlarmEv,
        hasHaltEv_append, hasHaltEv_stopEvents, hasHaltEv,
        countEv_append, countEv_stopEvents, countEv,
        move_x, move_y, move_z]

/-- C9 counterexample: with no leveling and no calibration strategy
configured, a G29-family command without a P argument makes `handle_gcode`
dereference the absent (null) strategy pointer — modelled as `Except.error`
— instead of producing the "No strategy found" unhandled report. -/
theorem strategy_dispatch_null_deref :
    strategy_gcode none none 29 false 0 = Except.error ()
    ∧ strategy_gcode none none 29 false 0 ≠ Except.ok (false, [noStrategyMsg]) := by
  refine ⟨rfl, ?_⟩
  intro hcontra
  exact Except.noConfusion hcontra

/-- C9 (amended): `handle_gcode`'s strategy dispatch never checks the strategy
pointers: whenever the strategy consulted on the taken path is absent (no P
argument with leveling absent, or leveling present but declining and
calibration absent; P0 with leveling absent; P1 with calibration absent), it
dereferences the absent capability (a fault), and it reports the command as
unhandled only when the consulted strategies are present and decline; a P
selector other than 0 and 1 is reported unsupported without any dereference. -/
theorem strategy_dispatch_absent_faults :
    (∀ (cal : Option Strategy) (code pArg : Nat),
      strategy_gcode none cal code false pArg = Except.error ())
    ∧ (∀ (l : Strategy) (code pArg : Nat), l.handles code = false →
      strategy_gcode (some l) none code false pArg = Except.error ())
    ∧ (∀ (l c : Strategy) (code pArg : Nat), l.handles code = false →
      c.handles code = false →
      strategy_gcode (some l) (some c) code false pArg
        = Except.ok (false, [noStrategyMsg]))
    ∧ (∀ (cal : Option Strategy) (code : Nat),
      strategy_gcode none cal code true 0 = Except.error ())
    ∧ (∀ (lev : Option Strategy) (code : Nat),
      strategy_gcode lev none code true 1 = Except.error ())
    ∧ (∀ (lev cal : Option Strategy) (code pArg : Nat), pArg ≠ 0 → pArg ≠ 1 →
      strategy_gcode lev cal code true pArg = Except.ok (false, [onlyP0P1Msg])) := by
  refine ⟨fun cal code pArg => rfl, ?_, ?_, fun cal code => rfl, ?_, ?_⟩
  · intro l code pArg hl
    simp [strategy_gcode, hl]
  · intro l c code pArg hl hc
    simp [strategy_gcode, hl, hc]
  · intro lev code
    cases lev <;> simp [strategy_gcode]
  · intro lev cal code pArg hp0 hp1
    simp [strategy_gcode, hp0, hp1]

/-- Witness for the amended C9 at concrete inputs: two configured strategies
that both decline G29 produce the unhandled report, and P5 is rejected. -/
theorem strategy_dispatch_absent_faults_witness :
    strategy_gcode (some ⟨fun _ => false⟩) (some ⟨fun _ => false⟩) 29 false 0
      = Except.ok (false, [noStrategyMsg])
    ∧ strategy_gcode none none 31 true 5 = Except.ok (false, [onlyP0P1Msg]) := by
  have h := strategy_dispatch_absent_faults
  exact ⟨h.2.2.1 ⟨fun _ => false⟩ ⟨fun _ => false⟩ 29 0 rfl rfl,
    h.2.2.2.2.2 none none 31 5 (by decide) (by decide)⟩

/-- C10: arming via `probe_XYZ` sets `probing := true` and
`probe_detected := false` but leaves the debounce counter at its previous
value, so the sampler runs with the carried-over count, while `run_probe`
(when its pin precondition passes) arms with the counter reset to 0. -/
theorem arming_debounce_frame (cfg : ZProbeCfg) (s : SessionState) (g : GcArgs)
    (axis : Nat) (env : XYZEnv) :
    (probe_XYZ cfg s g axis env).session
      = { (runTicks cfg
            { probing := true, probe_detected := false, debounce := s.debounce }
            env.ticks).1 with probing := false }
    ∧ ∀ (mm0 feedrate max_dist : ℚ) (reverse : Bool) (env2 : ProbeEnv),
        env2.pinAtEntry = false →
        (run_probe cfg s mm0 feedrate max_dist reverse env2).session
          = { (runTicks cfg
                { probing := true, probe_detected := false, debounce := 0 }
                env2.ticks).1 with probing := false } := by
  refine ⟨rfl, ?_⟩
  intro mm0 feedrate max_dist reverse env2 h
  simp [run_probe, h]

/-- Witness for C10: with threshold 1 and a session carrying debounce
count 1, a single active tick confirms under `probe_XYZ` arming (count
carried over) but not under `run_probe` arming (count reset to 0). -/
theorem arming_debounce_frame_witness :
    (probe_XYZ cfg1 sPrev g38args 0 envX).session.probe_detected = true
    ∧ (run_probe cfg1 sPrev 0 5 (-1) false envA).session.probe_detected = false := by
  have h := arming_debounce_frame cfg1 sPrev g38args 0 envX
  constructor
  · rw [h.1]
    norm_num [runTicks, read_probe, cfg1, cfg0, sPrev, envX, tickActive]
  · rw [h.2 0 5 (-1) false envA rfl]
    norm_num [runTicks, read_probe, cfg1, cfg0, sPrev, envA, tickActive]

/-- Witness for C1 at concrete inputs: with threshold 0, an armed session and
an active-moving tick detects with the stop issued on the same tick; a
disarmed session is left unchanged; two ticks stop at most once. -/
theorem read_probe_session_invariants_witness :
    sArmed.probing = true ∧ (read_probe cfg0 sArmed tickActive).2 = true
    ∧ read_probe cfg0 sIdle tickActive = (sIdle, false)
    ∧ countTrue (runTicks cfg0 sArmed [tickActive, tickActive]).2 ≤ 1 := by
  have h := read_probe_session_invariants cfg0 sArmed tickActive
  have h2 := read_probe_session_invariants cfg0 sIdle tickActive
  have hdet : (read_probe cfg0 sArmed tickActive).1.probe_detected = true := by decide
  have hnd : sArmed.probe_detected = false := rfl
  exact ⟨(h.1 hdet hnd).1, (h.1 hdet hnd).2, h2.2.1 (Or.inl rfl),
    h.2.2 [tickActive, tickActive]⟩

/-- Witness for C2 at threshold 1: one active tick only counts, the second
consecutive active tick confirms, and an inactive tick resets the counter. -/
theorem read_probe_debounce_exact_witness :
    runTicks cfg1 ⟨true, false, 0⟩ (List.replicate 1 tickActive)
      = (⟨true, false, 1⟩, List.replicate 1 false)
    ∧ runTicks cfg1 ⟨true, false, 0⟩ (List.replicate 2 tickActive)
      = (⟨true, true, 0⟩, List.replicate 1 false ++ [true])
    ∧ read_probe cfg1 sArmed { tickActive with pinActive := false }
      = ({ sArmed with debounce := 0 }, false) := by
  have ht : cfg1.debounce_ms = ((1 : Nat) : ℚ) := by norm_num [cfg1, cfg0]
  have h := read_probe_debounce_exact 1 cfg1 ht tickActive rfl rfl
  exact ⟨h.1 1 (le_refl 1), h.2.1,
    h.2.2 sArmed { tickActive with pinActive := false } rfl rfl rfl rfl⟩
